import Mathlib

/-!
Shallow embedding of the rocket-telemetry dashboard script (src/main.py).

The script runs once, top to bottom: it loads a CSV (an uploaded file takes
priority over the bundled selection), stops on an empty table, normalizes the
malformed time strings, derives a `datetime` column with coercing parse,
warns about unparseable rows, builds a 3D trajectory figure, four animated 2D
figures via `create_time_slider_frames`, and four static figures.

Modelling conventions:
- a table row is a `Row` record with the schema columns; numeric cells are
  `Int` (no arithmetic beyond min/max is performed on them);
- the pandas timestamp parser is an explicit parameter
  `parse : String → Option Nat` (it is library code, not part of the repository);
  `none` models `NaT`, matching the coercing `pd.to_datetime(..., errors=..)` call;
- raised exceptions are modelled with `Except Err`; `Err.keyError` models the
  `KeyError` of a positional series lookup out of range (main.py line 146),
  `Err.natStrftime` models the `ValueError` raised by calling `strftime` on
  `NaT` (main.py line 227);
- `st.stop()` after the empty-table warning is the `RunResult.stopped` outcome.
-/

/-- One telemetry sample: the expected CSV schema of main.py
(columns `date`, `time`, `lon`, `lat`, `gps_alt`, `alt`, `acc_x/y/z`,
`eu_x/y/z`, `valve_state`). -/
structure Row where
  date : String
  time : String
  lon : Int
  lat : Int
  gps_alt : Int
  alt : Int
  acc_x : Int
  acc_y : Int
  acc_z : Int
  eu_x : Int
  eu_y : Int
  eu_z : Int
  valve_state : Int
deriving Repr, DecidableEq, Inhabited

/-- True exactly on a list of three digit characters: the lookahead
`\d\x7b3\x7d$` of the regex on main.py line 62, checked against the rest of
the string. -/
def threeDigits : List Char → Bool
  | [a, b, c] => a.isDigit && b.isDigit && c.isDigit
  | _ => false

/-- Left-to-right scan of `str.replace(regex)` for the pattern of main.py
line 62: a colon is replaced by a period when the remainder of the string is
exactly three digits. -/
def fixTimeChars : List Char → List Char
  | [] => []
  | c :: cs => if (c == ':') && threeDigits cs then '.' :: cs else c :: fixTimeChars cs

/-- The time normalization of main.py line 62 as a `String` function. -/
def normalizeTime (s : String) : String :=
  ⟨fixTimeChars s.data⟩

/-- Whether the string decomposes as some prefix, a colon, and a final three
digits, i.e. whether the regex of main.py line 62 matches anywhere. -/
def endsColonThree : List Char → Bool
  | [] => false
  | c :: cs => ((c == ':') && threeDigits cs) || endsColonThree cs

/-- Line 62 of main.py: overwrite the `time` column with its normalized form. -/
def processTime (raw : List Row) : List Row :=
  raw.map fun r => { r with time := normalizeTime r.time }

/-- A loaded table after timestamp processing: the original rows (with the
`time` column already rewritten) plus the derived `datetime` column.
`none` is the `NaT` null marker. -/
structure DataFrame where
  rows : List Row
  datetime : List (Option Nat)
deriving Repr, DecidableEq, Inhabited

/-- Line 65 of main.py: `datetime` is the coercing parse of
`date + " " + time` per row (after the line-62 rewrite of `time`). -/
def deriveDatetime (parse : String → Option Nat) (rows : List Row) : DataFrame :=
  { rows := rows
    datetime := rows.map fun r => parse (r.date ++ " " ++ r.time) }

/-- Lines 62-65 of main.py composed: the processed table built from the raw
rows as loaded. -/
def processed (parse : String → Option Nat) (raw : List Row) : DataFrame :=
  deriveDatetime parse (processTime raw)

/-- Lines 68-70 of main.py: the rows displayed in the parse-failure warning
table, i.e. the rows whose derived datetime is null. -/
def badRows (df : DataFrame) : List Row :=
  ((df.rows.zip df.datetime).filter fun p => p.2.isNone).map (·.1)

/-- The bundled sample datasets of main.py lines 13-17, as name/path pairs. -/
def DATA_SOURCES : List (String × String) :=
  [("Ideal Launch", "database/ideal_rocket_launch.csv"),
   ("Sensor Data", "database/sensor_data_mock.csv")]

/-- Lines 38-44 of main.py: the table that gets loaded and the displayed
dataset name. `readCsv` abstracts `pd.read_csv` over the bundled paths and
`uploaded` is the parsed content of the upload control, when present. -/
def selectDf (readCsv : String → List Row) (selected : String)
    (uploaded : Option (List Row)) : List Row × String :=
  match uploaded with
  | some rows => (rows, "Uploaded Data")
  | none => (readCsv ((DATA_SOURCES.lookup selected).getD ""), selected)

-- The exceptions the script can raise, and the per-element effectful map that
-- models a Python loop or comprehension aborting at the first raised exception.

/-- Exceptions of the script: a positional series lookup out of range
(`KeyError`, main.py line 146) and `strftime` called on a null timestamp
(`ValueError`, main.py line 227). -/
inductive Err where
  | keyError
  | natStrftime
deriving Repr, DecidableEq

/-- Effectful map over a list, aborting at the first exception, as a Python
`for` loop or comprehension does. -/
def mapME {α β : Type} (f : α → Except Err β) : List α → Except Err (List β)
  | [] => .ok []
  | a :: as => do
    let b ← f a
    let bs ← mapME f as
    return b :: bs

/-- The ascending values of the Python builtin `range(start, stop, step)`
for a positive step. -/
def pyRange (start stop step : Nat) : List Nat :=
  if step = 0 then []
  else (List.range ((stop - start + step - 1) / step)).map fun i => start + i * step

/-- Positional lookup `series[i]` on a pandas column with the default range
index: a `KeyError` when the index is out of range. -/
def seriesGet (xs : List Int) (i : Nat) : Except Err Int :=
  match xs.get? i with
  | some v => .ok v
  | none => .error .keyError

-- The 2D time-slider frame builder (main.py lines 211-264).

/-- One `go.Scatter` trace of a 2D chart: x is a slice of the `datetime`
column, y a slice of a numeric column. -/
structure Scatter where
  x : List (Option Nat)
  y : List Int
deriving Repr, DecidableEq, Inhabited

/-- One `go.Frame` of a 2D animation: its name `str(k)` and one trace per
requested column. -/
structure Frame2D where
  name : String
  data : List Scatter
deriving Repr, DecidableEq, Inhabited

/-- The parts of the `go.Figure` built by `create_time_slider_frames` that
carry data: the initial traces, the slider labels, and the frames. -/
structure Fig2D where
  data : List Scatter
  sliderLabels : List String
  frames : List Frame2D
deriving Repr, DecidableEq, Inhabited

/-- Line 215 of main.py: `step_size = max(1, n_points // 30)`. -/
def step_size (n_points : Nat) : Nat :=
  max 1 (n_points / 30)

/-- Line 217 of main.py: the frame bounds `range(step_size, n_points + 1,
step_size)`. -/
def frameIndices (n_points : Nat) : List Nat :=
  pyRange (step_size n_points) (n_points + 1) (step_size n_points)

/-- Lines 218-222 of main.py: the frame named `str(k)` holds, per requested
column, the first k datetime values against the first k column values.
A requested column is modelled as a selector `Row → Int`. -/
def mkFrame (df : DataFrame) (y_cols : List (Row → Int)) (k : Nat) : Frame2D :=
  { name := toString k
    data := y_cols.map fun col =>
      { x := df.datetime.take k, y := (df.rows.map col).take k } }

/-- Stand-in for `strftime` on a non-null timestamp (main.py line 227): the
label text does not matter to any claim, only definedness does. -/
def strftimeHMS (t : Nat) : String :=
  toString t

/-- Line 227 of main.py: the slider label formats `df.datetime.iloc[k-1]`;
on a null timestamp (`NaT`) `strftime` raises. The index k-1 is always in
range for the k of `frameIndices`. -/
def mkSliderLabel (df : DataFrame) (k : Nat) : Except Err String :=
  match df.datetime.getD (k - 1) none with
  | none => .error .natStrftime
  | some t => .ok (strftimeHMS t)

/-- Lines 230-232 of main.py: the initial traces are the first `step_size`
rows of each requested column. -/
def initialData (df : DataFrame) (y_cols : List (Row → Int)) : List Scatter :=
  y_cols.map fun col =>
    { x := df.datetime.take (step_size df.rows.length)
      y := (df.rows.map col).take (step_size df.rows.length) }

/-- Lines 211-264 of main.py. The source builds frames and slider labels in
one loop; an unparseable timestamp at a frame bound raises out of the loop,
so no figure is returned. The two passes here produce the same figure and
fail under the same condition. -/
def create_time_slider_frames (df : DataFrame) (y_cols : List (Row → Int)) :
    Except Err Fig2D := do
  let labels ← mapME (mkSliderLabel df) (frameIndices df.rows.length)
  return { data := initialData df y_cols
           sliderLabels := labels
           frames := (frameIndices df.rows.length).map (mkFrame df y_cols) }

-- The 3D trajectory figure (main.py lines 76-207).

/-- One `go.Scatter3d` line trace: slices of the lon, lat and gps_alt
columns. -/
structure Scatter3D where
  x : List Int
  y : List Int
  z : List Int
deriving Repr, DecidableEq, Inhabited

/-- The `go.Surface` ground plane of main.py lines 79-87: its height and
extents come from column minima and maxima (`none` on an empty column,
as pandas yields NaN there). -/
structure Surface where
  z : Option Int
  x0 : Option Int
  x1 : Option Int
  y0 : Option Int
  y1 : Option Int
deriving Repr, DecidableEq, Inhabited

/-- One `go.Frame` of the trajectory animation (main.py lines 90-118): the
path over the first k rows and the rocket marker at row k-1. -/
structure Frame3D where
  name : String
  path : Scatter3D
  rocket : Int × Int × Int
deriving Repr, DecidableEq, Inhabited

/-- The data-carrying parts of the trajectory `go.Figure` (main.py lines
134-204): ground plane, initial path (first 10 rows), initial rocket marker
(row 9), slider labels and animation frames. -/
structure Fig3D where
  ground : Surface
  path0 : Scatter3D
  rocket0 : Int × Int × Int
  sliderLabels : List String
  frames : List Frame3D
deriving Repr, DecidableEq, Inhabited

/-- Main.py lines 79-87: the ground plane from the lon/lat extents and the
gps_alt minimum minus 10. -/
def ground_plane (df : DataFrame) : Surface :=
  { z := ((df.rows.map (·.gps_alt)).min?).map (· - 10)
    x0 := (df.rows.map (·.lon)).min?
    x1 := (df.rows.map (·.lon)).max?
    y0 := (df.rows.map (·.lat)).min?
    y1 := (df.rows.map (·.lat)).max? }

/-- Main.py lines 91-116: the frame named `str(k)` with the path over rows
[0,k) and the rocket at row k-1. For the k of line 117 the lookups cannot
fail, but the positional lookup semantics is kept. -/
def mkFrame3D (df : DataFrame) (k : Nat) : Except Err Frame3D := do
  let rx ← seriesGet (df.rows.map (·.lon)) (k - 1)
  let ry ← seriesGet (df.rows.map (·.lat)) (k - 1)
  let rz ← seriesGet (df.rows.map (·.gps_alt)) (k - 1)
  return { name := toString k
           path := { x := (df.rows.map (·.lon)).take k
                     y := (df.rows.map (·.lat)).take k
                     z := (df.rows.map (·.gps_alt)).take k }
           rocket := (rx, ry, rz) }

/-- Main.py lines 90-204 in evaluation order: the frame comprehension over
`range(10, len(df), 5)` (line 117), the slider labels `f"{k * 50} ms"`
(lines 121-131), then the initial figure data, whose rocket marker indexes
row 9 of each position column (lines 146-148) and raises a `KeyError` when
the table has fewer than 10 rows. -/
def build3DFig (df : DataFrame) : Except Err Fig3D := do
  let frames ← mapME (mkFrame3D df) (pyRange 10 df.rows.length 5)
  let labels := (pyRange 10 df.rows.length 5).map fun k => toString (k * 50) ++ " ms"
  let x9 ← seriesGet (df.rows.map (·.lon)) 9
  let y9 ← seriesGet (df.rows.map (·.lat)) 9
  let z9 ← seriesGet (df.rows.map (·.gps_alt)) 9
  return { ground := ground_plane df
           path0 := { x := (df.rows.map (·.lon)).take 10
                      y := (df.rows.map (·.lat)).take 10
                      z := (df.rows.map (·.gps_alt)).take 10 }
           rocket0 := (x9, y9, z9)
           sliderLabels := labels
           frames := frames }

-- The full script run (main.py top to bottom).

/-- A static `px.line` / `px.scatter` trace over the whole table (main.py
lines 292-307). -/
def staticLine (df : DataFrame) (col : Row → Int) : Scatter :=
  { x := df.datetime, y := df.rows.map col }

/-- Everything the script renders after a successful run: the parse warning
state, the trajectory figure, the four animated 2D figures (lines 270-285)
and the four static charts (lines 292-307). -/
structure Output where
  parseWarning : Bool
  badRows : List Row
  fig3d : Fig3D
  figAlt : Fig2D
  figAcc : Fig2D
  figEu : Fig2D
  figValve : Fig2D
  staticAlt : Scatter
  staticAcc : List Scatter
  staticEu : List Scatter
  staticValve : Scatter
deriving Repr, DecidableEq, Inhabited

/-- The chart-building part of the script, main.py lines 76-307, in source
order; any raised exception aborts the run. -/
def renderCharts (df : DataFrame) (warned : Bool) (bad : List Row) :
    Except Err Output := do
  let fig3d ← build3DFig df
  let figAlt ← create_time_slider_frames df [fun r => r.alt]
  let figAcc ← create_time_slider_frames df
    [fun r => r.acc_x, fun r => r.acc_y, fun r => r.acc_z]
  let figEu ← create_time_slider_frames df
    [fun r => r.eu_x, fun r => r.eu_y, fun r => r.eu_z]
  let figValve ← create_time_slider_frames df [fun r => r.valve_state]
  return { parseWarning := warned
           badRows := bad
           fig3d := fig3d
           figAlt := figAlt
           figAcc := figAcc
           figEu := figEu
           figValve := figValve
           staticAlt := staticLine df (fun r => r.alt)
           staticAcc := [staticLine df (fun r => r.acc_x),
                         staticLine df (fun r => r.acc_y),
                         staticLine df (fun r => r.acc_z)]
           staticEu := [staticLine df (fun r => r.eu_x),
                        staticLine df (fun r => r.eu_y),
                        staticLine df (fun r => r.eu_z)]
           staticValve := staticLine df (fun r => r.valve_state) }

/-- Outcome of one script run: `stopped` is the `st.stop()` after the
empty-table warning (main.py lines 53-55), `crashed` an uncaught
exception, `rendered` a completed page. -/
inductive RunResult where
  | stopped
  | rendered (out : Output)
  | crashed (e : Err)
deriving Repr, DecidableEq, Inhabited

/-- Main.py lines 51-307 on an already-loaded table: the empty gate, the
timestamp processing of lines 62-70 (the parse-failure warning shows the
null rows and execution moves on), then every chart in source order. -/
def runDashboard (parse : String → Option Nat) (raw : List Row) : RunResult :=
  if raw.isEmpty then .stopped
  else
    let df := processed parse raw
    match renderCharts df (df.datetime.any (·.isNone)) (badRows df) with
    | .ok out => .rendered out
    | .error e => .crashed e

/-- Main.py lines 38-44 composed with the rest of the script: the loaded
table comes from the upload control when a file was supplied, else from the
selected bundled CSV. -/
def app (parse : String → Option Nat) (readCsv : String → List Row)
    (selected : String) (uploaded : Option (List Row)) : RunResult :=
  runDashboard parse (selectDf readCsv selected uploaded).1

-- Predicates and conclusion statements referred to by several claims.

/-- The condition under which every slider label of
`create_time_slider_frames` can be formatted: each emitted frame bound k has
a non-null datetime at row k-1 (main.py line 227). -/
def boundariesOk (df : DataFrame) : Prop :=
  ∀ k ∈ frameIndices df.rows.length, (df.datetime.getD (k - 1) none).isSome

instance (df : DataFrame) : Decidable (boundariesOk df) := by
  unfold boundariesOk
  infer_instance

/-- The normalization as the spec words it: the colon preceding a final run
of exactly three digits is replaced by a period, and a time string with no
such decomposition is left unchanged. -/
def NormalizeSpec : Prop :=
  (∀ (pre : List Char) (a b c : Char),
    a.isDigit = true → b.isDigit = true → c.isDigit = true →
    fixTimeChars (pre ++ ':' :: [a, b, c]) = pre ++ '.' :: [a, b, c]) ∧
  ∀ cs : List Char, endsColonThree cs = false → fixTimeChars cs = cs

/-- Conclusion of claim C1: with n the row count and step = max(1, n / 30),
the builder emits floor(n / step) frames; the i-th is named str(k) for
k = (i+1) * step ≤ n, holds the first k rows of each requested column, and
each of its traces has row count exactly k. -/
def C1Concl (df : DataFrame) (y_cols : List (Row → Int)) (fig : Fig2D) : Prop :=
  fig.frames.length = df.rows.length / step_size df.rows.length ∧
  ∀ i, i < fig.frames.length →
    (i + 1) * step_size df.rows.length ≤ df.rows.length ∧
    fig.frames.get? i =
      some { name := toString ((i + 1) * step_size df.rows.length)
             data := y_cols.map fun col =>
               { x := df.datetime.take ((i + 1) * step_size df.rows.length)
                 y := (df.rows.map col).take ((i + 1) * step_size df.rows.length) } } ∧
    ∀ col ∈ y_cols,
      ((df.rows.map col).take ((i + 1) * step_size df.rows.length)).length =
        (i + 1) * step_size df.rows.length

/-- Conclusion of claim C5: each emitted frame is a componentwise prefix of
the next one (its traces are the takes of the next traces at the earlier
bound), and the i-th frame holds exactly the rows [0, (i+1)*step). -/
def C5Concl (df : DataFrame) (y_cols : List (Row → Int)) (fig : Fig2D) : Prop :=
  (∀ i fr fr2, fig.frames.get? i = some fr → fig.frames.get? (i + 1) = some fr2 →
    fr.data = fr2.data.map fun s =>
      { x := s.x.take ((i + 1) * step_size df.rows.length)
        y := s.y.take ((i + 1) * step_size df.rows.length) }) ∧
  ∀ i, i < fig.frames.length →
    fig.frames.get? i =
      some { name := toString ((i + 1) * step_size df.rows.length)
             data := y_cols.map fun col =>
               { x := df.datetime.take ((i + 1) * step_size df.rows.length)
                 y := (df.rows.map col).take ((i + 1) * step_size df.rows.length) } }

/-- Conclusion of claim C9: a non-empty table of fewer than 10 rows makes
the initial trajectory figure raise a KeyError at row 9; when the figure is
built, the table has at least 10 rows, the animation has one frame per k in
range(10, n, 5), and a 10-row table yields zero frames. -/
def C9Concl (df : DataFrame) : Prop :=
  (df.rows.length < 10 → build3DFig df = .error .keyError) ∧
  ∀ fig, build3DFig df = .ok fig →
    10 ≤ df.rows.length ∧
    fig.frames.length = (pyRange 10 df.rows.length 5).length ∧
    (df.rows.length = 10 → fig.frames = [])

/-- Conclusion of the amended claim C2: the run renders every chart, the
warning state records whether any datetime failed to parse, the warning
table holds exactly the failing rows, and all rows are retained into the
rendered charts. -/
def C2Concl (parse : String → Option Nat) (raw : List Row) : Prop :=
  ∃ out, runDashboard parse raw = .rendered out ∧
    out.parseWarning = (processed parse raw).datetime.any (·.isNone) ∧
    out.badRows = badRows (processed parse raw) ∧
    out.staticAlt.y = raw.map (·.alt)

-- Concrete sample data used by the witnesses and counterexamples.

/-- A telemetry sample with the malformed time format the script repairs. -/
def sampleRow0 : Row :=
  { date := "2024-05-01", time := "12:00:00:123", lon := 1, lat := 2,
    gps_alt := 3, alt := 4, acc_x := 5, acc_y := 6, acc_z := 7, eu_x := 8,
    eu_y := 9, eu_z := 10, valve_state := 0 }

/-- A ten-row table, the smallest size that renders the trajectory chart. -/
def sampleRaw : List Row :=
  List.replicate 10 sampleRow0

/-- A concrete always-succeeding timestamp parser for witnesses. -/
def parseLen : String → Option Nat :=
  fun s => some s.length

/-- A concrete always-failing timestamp parser for counterexamples. -/
def parseFail : String → Option Nat :=
  fun _ => none

/-- The sample table after timestamp processing. -/
def sampleDF : DataFrame :=
  processed parseLen sampleRaw

/-- The column list of the altitude chart (main.py line 270). -/
def colsAlt : List (Row → Int) :=
  [fun r => r.alt]

/-- The altitude figure the frame builder returns on the sample table. -/
def figAltSample : Fig2D :=
  match create_time_slider_frames sampleDF colsAlt with
  | .ok fig => fig
  | .error _ => default

/-- A one-row table whose time cell the script rewrites in place. -/
def rawC7 : List Row :=
  [sampleRow0]

theorem threeDigits_false_of_four_le (xs : List Char) (h : 4 ≤ xs.length) :
    threeDigits xs = false := by
  match xs with
  | [] => simp at h
  | [_] => simp at h
  | [_, _] => simp at h
  | [_, _, _] => simp at h
  | _ :: _ :: _ :: _ :: _ => rfl

theorem fixTimeChars_match (pre : List Char) (a b c : Char)
    (ha : a.isDigit) (hb : b.isDigit) (hc : c.isDigit) :
    fixTimeChars (pre ++ ':' :: [a, b, c]) = pre ++ '.' :: [a, b, c] := by
  induction pre with
  | nil => simp [fixTimeChars, threeDigits, ha, hb, hc]
  | cons p pre ih =>
    have hlen : 4 ≤ (pre ++ ':' :: [a, b, c]).length := by
      simp
    have h3 : threeDigits (pre ++ ':' :: [a, b, c]) = false :=
      threeDigits_false_of_four_le _ hlen
    simp [fixTimeChars, h3, ih]

theorem fixTimeChars_no_match (cs : List Char) (h : endsColonThree cs = false) :
    fixTimeChars cs = cs := by
  induction cs with
  | nil => rfl
  | cons c cs ih =>
    simp [endsColonThree] at h
    obtain ⟨h1, h2⟩ := h
    have hcond : ((c == ':') && threeDigits cs) = false := by
      cases hce : (c == ':') with
      | false => simp
      | true => simp [h1 (by simpa using hce)]
    simp [fixTimeChars, hcond, ih h2]

theorem mapME_eq_ok {α β : Type} (f : α → Except Err β) (xs : List α)
    (h : ∀ a ∈ xs, ∃ b, f a = .ok b) :
    ∃ ys, mapME f xs = .ok ys ∧ ys.length = xs.length := by
  induction xs with
  | nil => exact ⟨[], rfl, rfl⟩
  | cons a as ih =>
    obtain ⟨b, hb⟩ := h a (List.mem_cons_self a as)
    obtain ⟨ys, hys, hlen⟩ := ih fun x hx => h x (List.mem_cons_of_mem a hx)
    refine ⟨b :: ys, ?_, by simp [hlen]⟩
    simp only [mapME, hb, hys]
    rfl

theorem pyRange_length (start stop step : Nat) (hs : 0 < step) :
    (pyRange start stop step).length = (stop - start + step - 1) / step := by
  simp [pyRange, Nat.pos_iff_ne_zero.mp hs]

theorem pyRange_get (start stop step : Nat) (i : Nat)
    (h : i < (pyRange start stop step).length) :
    (pyRange start stop step).get ⟨i, h⟩ = start + i * step := by
  by_cases hs : step = 0
  · simp [pyRange, hs] at h
  · simp [pyRange, hs] at h ⊢

theorem pyRange_mem (start stop step k : Nat) (hs : 0 < step)
    (hk : k ∈ pyRange start stop step) : start ≤ k ∧ k < stop := by
  simp [pyRange, Nat.pos_iff_ne_zero.mp hs] at hk
  obtain ⟨i, hi, rfl⟩ := hk
  have h2 : (i + 1) * step ≤ stop - start + step - 1 :=
    le_trans (Nat.mul_le_mul_right step (Nat.succ_le_of_lt hi)) (Nat.div_mul_le_self _ _)
  rw [Nat.succ_mul] at h2
  omega

theorem create_ok_elim (df : DataFrame) (y_cols : List (Row → Int)) (fig : Fig2D)
    (h : create_time_slider_frames df y_cols = .ok fig) :
    fig.data = initialData df y_cols ∧
      fig.frames = (frameIndices df.rows.length).map (mkFrame df y_cols) := by
  unfold create_time_slider_frames at h
  cases hm : mapME (mkSliderLabel df) (frameIndices df.rows.length) with
  | error e => rw [hm] at h; exact absurd h (by simp [Except.bind])
  | ok ls =>
    rw [hm] at h
    have : (Except.ok
        { data := initialData df y_cols, sliderLabels := ls,
          frames := (frameIndices df.rows.length).map (mkFrame df y_cols) } :
        Except Err Fig2D) = .ok fig := h
    cases this
    exact ⟨rfl, rfl⟩

theorem step_size_pos (n : Nat) : 0 < step_size n :=
  lt_of_lt_of_le Nat.zero_lt_one (le_max_left _ _)

theorem step_size_le (n : Nat) (h : 1 ≤ n) : step_size n ≤ n := by
  have h30 : n / 30 ≤ n := Nat.div_le_self n 30
  simp [step_size]
  omega

theorem frameIndices_length (n : Nat) (h : 1 ≤ n) :
    (frameIndices n).length = n / step_size n := by
  unfold frameIndices
  rw [pyRange_length _ _ _ (step_size_pos n)]
  have hle : step_size n ≤ n := step_size_le n h
  have : n + 1 - step_size n + step_size n - 1 = n := by omega
  rw [this]

theorem frameIndices_getElem (n i : Nat) (h : i < (frameIndices n).length) :
    (frameIndices n)[i] = (i + 1) * step_size n := by
  unfold frameIndices at h ⊢
  have := pyRange_get (step_size n) (n + 1) (step_size n) i h
  simp only [List.get_eq_getElem] at this
  rw [this, Nat.succ_mul, Nat.add_comm (i * step_size n)]

-- Reduction facts for the Except monad as used by the do-blocks above.

theorem ok_bind {α β : Type} (a : α) (f : α → Except Err β) :
    ((Except.ok a : Except Err α) >>= f) = f a :=
  rfl

theorem error_bind {α β : Type} (e : Err) (f : α → Except Err β) :
    ((Except.error e : Except Err α) >>= f) = .error e :=
  rfl

theorem bind_eq_ok {α β : Type} {x : Except Err α} {f : α → Except Err β} {b : β}
    (h : (x >>= f) = .ok b) : ∃ a, x = .ok a ∧ f a = .ok b := by
  cases x with
  | error e =>
    rw [error_bind] at h
    exact absurd h (by simp)
  | ok a =>
    rw [ok_bind] at h
    exact ⟨a, rfl, h⟩

theorem mapME_ok_length {α β : Type} (f : α → Except Err β) (xs : List α)
    (ys : List β) (h : mapME f xs = .ok ys) : ys.length = xs.length := by
  induction xs generalizing ys with
  | nil =>
    have h0 : (Except.ok [] : Except Err (List β)) = .ok ys := h
    cases h0
    rfl
  | cons a as ih =>
    unfold mapME at h
    obtain ⟨b, hb, h2⟩ := bind_eq_ok h
    obtain ⟨bs, hbs, h3⟩ := bind_eq_ok h2
    have h4 : (Except.ok (b :: bs) : Except Err (List β)) = .ok ys := h3
    cases h4
    simp [ih bs hbs]

theorem seriesGet_ok (xs : List Int) (i : Nat) (h : i < xs.length) :
    ∃ v, seriesGet xs i = .ok v := by
  have hg : xs[i]? = some xs[i] := List.getElem?_eq_getElem h
  refine ⟨xs[i], ?_⟩
  simp [seriesGet, hg]

theorem seriesGet_ok_elim (xs : List Int) (i : Nat) (v : Int)
    (h : seriesGet xs i = .ok v) : i < xs.length := by
  unfold seriesGet at h
  simp only [List.get?_eq_getElem?] at h
  cases hg : xs[i]? with
  | none => rw [hg] at h; exact absurd h (by simp)
  | some w =>
    obtain ⟨hlt, _⟩ := List.getElem?_eq_some.mp hg
    exact hlt

theorem seriesGet_error (xs : List Int) (i : Nat) (h : xs.length ≤ i) :
    seriesGet xs i = .error .keyError := by
  have hg : xs[i]? = none := List.getElem?_eq_none h
  simp [seriesGet, hg]

-- Characterization of the 3D trajectory figure.

theorem mkFrame3D_ok_of (df : DataFrame) (k : Nat) (h : k - 1 < df.rows.length) :
    ∃ fr, mkFrame3D df k = .ok fr := by
  obtain ⟨rx, hrx⟩ := seriesGet_ok (df.rows.map (·.lon)) (k - 1) (by simpa using h)
  obtain ⟨ry, hry⟩ := seriesGet_ok (df.rows.map (·.lat)) (k - 1) (by simpa using h)
  obtain ⟨rz, hrz⟩ := seriesGet_ok (df.rows.map (·.gps_alt)) (k - 1) (by simpa using h)
  cases hc : mkFrame3D df k with
  | ok fr => exact ⟨fr, rfl⟩
  | error e =>
    unfold mkFrame3D at hc
    simp only [hrx, hry, hrz, ok_bind] at hc
    exact Except.noConfusion hc

theorem build3DFig_ok_of (df : DataFrame) (h10 : 10 ≤ df.rows.length) :
    ∃ fig, build3DFig df = .ok fig := by
  obtain ⟨frs, hfrs, _⟩ := mapME_eq_ok (mkFrame3D df) (pyRange 10 df.rows.length 5)
    (by
      intro k hk
      obtain ⟨hk10, hkn⟩ := pyRange_mem 10 df.rows.length 5 k (by norm_num) hk
      exact mkFrame3D_ok_of df k (by omega))
  obtain ⟨x9, hx⟩ := seriesGet_ok (df.rows.map (·.lon)) 9 (by simp; omega)
  obtain ⟨y9, hy⟩ := seriesGet_ok (df.rows.map (·.lat)) 9 (by simp; omega)
  obtain ⟨z9, hz⟩ := seriesGet_ok (df.rows.map (·.gps_alt)) 9 (by simp; omega)
  cases hc : build3DFig df with
  | ok fig => exact ⟨fig, rfl⟩
  | error e =>
    unfold build3DFig at hc
    simp only [hfrs, hx, hy, hz, ok_bind] at hc
    exact Except.noConfusion hc

theorem build3DFig_ok_elim (df : DataFrame) (fig : Fig3D)
    (h : build3DFig df = .ok fig) :
    10 ≤ df.rows.length ∧
      fig.frames.length = (pyRange 10 df.rows.length 5).length := by
  unfold build3DFig at h
  obtain ⟨frs, hfrs, h⟩ := bind_eq_ok h
  obtain ⟨x9, hx, h⟩ := bind_eq_ok h
  obtain ⟨y9, hy, h⟩ := bind_eq_ok h
  obtain ⟨z9, hz, h⟩ := bind_eq_ok h
  have h9 : 9 < (df.rows.map (·.lon)).length := seriesGet_ok_elim _ _ _ hx
  have h10 : 10 ≤ df.rows.length := by simpa using h9
  have hfig := Except.ok.inj h
  refine ⟨h10, ?_⟩
  rw [← hfig]
  exact mapME_ok_length _ _ _ hfrs

theorem build3DFig_error_of (df : DataFrame) (h : df.rows.length < 10) :
    build3DFig df = .error .keyError := by
  have hpr : pyRange 10 df.rows.length 5 = [] := by
    unfold pyRange
    have hz : (df.rows.length - 10 + 4) / 5 = 0 := Nat.div_eq_of_lt (by omega)
    simp [hz]
  have hx : seriesGet (df.rows.map (·.lon)) 9 = .error .keyError :=
    seriesGet_error _ _ (by simp; omega)
  simp only [build3DFig, hpr, mapME, ok_bind, hx, error_bind]

-- The frame builder succeeds exactly when every slider label can be formatted.

theorem mkSliderLabel_ok (df : DataFrame) (k : Nat)
    (h : (df.datetime.getD (k - 1) none).isSome) :
    ∃ s, mkSliderLabel df k = .ok s := by
  cases hg : df.datetime.getD (k - 1) none with
  | none => rw [hg] at h; simp at h
  | some t =>
    refine ⟨strftimeHMS t, ?_⟩
    unfold mkSliderLabel
    rw [hg]

theorem create_ok_of (df : DataFrame) (y_cols : List (Row → Int))
    (hb : boundariesOk df) :
    ∃ fig, create_time_slider_frames df y_cols = .ok fig := by
  obtain ⟨ls, hls, _⟩ := mapME_eq_ok (mkSliderLabel df) (frameIndices df.rows.length)
    (fun k hk => mkSliderLabel_ok df k (hb k hk))
  cases hc : create_time_slider_frames df y_cols with
  | ok fig => exact ⟨fig, rfl⟩
  | error e =>
    unfold create_time_slider_frames at hc
    simp only [hls, ok_bind] at hc
    exact Except.noConfusion hc

-- Columns other than `time` pass through the line-62 rewrite unchanged.

theorem processTime_col {α : Type} (f g : Row → α) (raw : List Row)
    (hfg : ∀ r, f { r with time := normalizeTime r.time } = g r) :
    (processTime raw).map f = raw.map g := by
  unfold processTime
  rw [List.map_map]
  exact List.map_congr_left fun r _ => hfg r

-- Claim theorems.

/-- C3: for every row, the derived datetime equals the coercing parse of the
date field, a space, and the normalized time field; normalization replaces
the colon that precedes the final three digits with a period and leaves any
other string unchanged. A failed parse yields the null marker (the `Option`
codomain), never an exception. -/
theorem c3_derived_datetime (parse : String → Option Nat) (raw : List Row)
    (i : Nat) (r : Row) (h : raw.get? i = some r) :
    (processed parse raw).datetime.get? i =
      some (parse (r.date ++ " " ++ normalizeTime r.time)) ∧ NormalizeSpec := by
  constructor
  · have h' : raw[i]? = some r := by simpa [List.get?_eq_getElem?] using h
    simp [processed, deriveDatetime, processTime, List.get?_eq_getElem?,
      List.getElem?_map, h']
  · exact ⟨fun pre a b c ha hb hc => fixTimeChars_match pre a b c ha hb hc,
      fixTimeChars_no_match⟩

/-- Witness for C3 at row 0 of the sample table. -/
theorem c3_witness :
    sampleRaw.get? 0 = some sampleRow0 ∧
    ((processed parseLen sampleRaw).datetime.get? 0 =
        some (parseLen (sampleRow0.date ++ " " ++ normalizeTime sampleRow0.time)) ∧
      NormalizeSpec) :=
  ⟨by decide, c3_derived_datetime parseLen sampleRaw 0 sampleRow0 (by decide)⟩

/-- C4: an empty loaded table warns and halts the run before timestamp
processing or any chart construction; no figure is produced. -/
theorem c4_empty_stops (parse : String → Option Nat) :
    runDashboard parse [] = .stopped :=
  rfl

/-- C6: when every row of the input parses (after normalization), the
derived datetime column holds no null value. -/
theorem c6_parseable_no_null (parse : String → Option Nat) (raw : List Row)
    (h : ∀ r ∈ raw, (parse (r.date ++ " " ++ normalizeTime r.time)).isSome) :
    ∀ d ∈ (processed parse raw).datetime, d.isSome := by
  intro d hd
  simp only [processed, deriveDatetime, processTime, List.map_map,
    List.mem_map, Function.comp] at hd
  obtain ⟨r, hr, rfl⟩ := hd
  exact h r hr

/-- Witness for C6 on the sample table under the always-succeeding parser. -/
theorem c6_witness :
    (∀ r ∈ sampleRaw, (parseLen (r.date ++ " " ++ normalizeTime r.time)).isSome) ∧
    ∀ d ∈ (processed parseLen sampleRaw).datetime, d.isSome :=
  ⟨by decide, c6_parseable_no_null parseLen sampleRaw (by decide)⟩

/-- C7 fails on the code: the line-62 rewrite overwrites the `time` column in
place, so a table holding the malformed time "12:00:00:123" has its time
column changed by the processing that follows the load. -/
theorem c7_counterexample :
    (processTime rawC7).map (·.time) ≠ rawC7.map (·.time) := by
  decide

/-- C7 amended: after the load the only in-place modification is the line-62
rewrite of the `time` column to its normalized form; every other column
passes through unchanged, and the datetime derivation adds a new column
without touching the existing rows. -/
theorem c7_amended (parse : String → Option Nat) (raw : List Row) :
    (processTime raw).map (·.date) = raw.map (·.date) ∧
    (processTime raw).map (·.lon) = raw.map (·.lon) ∧
    (processTime raw).map (·.lat) = raw.map (·.lat) ∧
    (processTime raw).map (·.gps_alt) = raw.map (·.gps_alt) ∧
    (processTime raw).map (·.alt) = raw.map (·.alt) ∧
    (processTime raw).map (·.acc_x) = raw.map (·.acc_x) ∧
    (processTime raw).map (·.acc_y) = raw.map (·.acc_y) ∧
    (processTime raw).map (·.acc_z) = raw.map (·.acc_z) ∧
    (processTime raw).map (·.eu_x) = raw.map (·.eu_x) ∧
    (processTime raw).map (·.eu_y) = raw.map (·.eu_y) ∧
    (processTime raw).map (·.eu_z) = raw.map (·.eu_z) ∧
    (processTime raw).map (·.valve_state) = raw.map (·.valve_state) ∧
    (processTime raw).map (·.time) = raw.map (fun r => normalizeTime r.time) ∧
    (processed parse raw).rows = processTime raw := by
  refine ⟨?_, ?_, ?_, ?_, ?_, ?_, ?_, ?_, ?_, ?_, ?_, ?_, ?_, rfl⟩ <;>
    exact processTime_col _ _ raw fun r => rfl

/-- C8: a CSV supplied through the upload control is always the table that
gets loaded and rendered, whatever bundled dataset is selected; the bundled
selection is read only when no file was uploaded. -/
theorem c8_upload_priority (parse : String → Option Nat)
    (readCsv : String → List Row) (selected : String) (rows : List Row) :
    app parse readCsv selected (some rows) = runDashboard parse rows ∧
    selectDf readCsv selected (some rows) = (rows, "Uploaded Data") ∧
    app parse readCsv selected none =
      runDashboard parse (readCsv ((DATA_SOURCES.lookup selected).getD "")) :=
  ⟨rfl, rfl, rfl⟩

-- Access to the emitted frames of a successfully built 2D figure.

theorem create_frames_length (df : DataFrame) (y_cols : List (Row → Int))
    (fig : Fig2D) (h1 : 1 ≤ df.rows.length)
    (h : create_time_slider_frames df y_cols = .ok fig) :
    fig.frames.length = df.rows.length / step_size df.rows.length := by
  obtain ⟨-, hframes⟩ := create_ok_elim df y_cols fig h
  rw [hframes, List.length_map, frameIndices_length _ h1]

theorem create_frames_get (df : DataFrame) (y_cols : List (Row → Int))
    (fig : Fig2D) (h : create_time_slider_frames df y_cols = .ok fig)
    (i : Nat) (hi : i < fig.frames.length) :
    fig.frames.get? i =
      some (mkFrame df y_cols ((i + 1) * step_size df.rows.length)) := by
  obtain ⟨-, hframes⟩ := create_ok_elim df y_cols fig h
  have hi' : i < (frameIndices df.rows.length).length := by
    rw [hframes, List.length_map] at hi
    exact hi
  rw [hframes, List.get?_eq_getElem?, List.getElem?_map,
    List.getElem?_eq_getElem hi', frameIndices_getElem _ _ hi']
  rfl

/-- C1: for a table with n ≥ 1 rows the builder computes
step = max(1, n / 30) and emits one frame per multiple of step up to n; the
i-th frame is named str((i+1)*step), holds the first (i+1)*step rows of each
requested column, the emitted count is floor(n / step), and the snapshot at
bound k has row count exactly k. -/
theorem c1_frame_builder (df : DataFrame) (y_cols : List (Row → Int))
    (fig : Fig2D) (h1 : 1 ≤ df.rows.length)
    (h : create_time_slider_frames df y_cols = .ok fig) :
    C1Concl df y_cols fig := by
  have hlen := create_frames_length df y_cols fig h1 h
  refine ⟨hlen, fun i hi => ?_⟩
  have hi2 : i < df.rows.length / step_size df.rows.length := by omega
  have hkn : (i + 1) * step_size df.rows.length ≤ df.rows.length :=
    calc (i + 1) * step_size df.rows.length
        ≤ (df.rows.length / step_size df.rows.length) * step_size df.rows.length :=
          Nat.mul_le_mul_right _ (Nat.succ_le_of_lt hi2)
      _ ≤ df.rows.length := Nat.div_mul_le_self _ _
  refine ⟨hkn, ?_, ?_⟩
  · rw [create_frames_get df y_cols fig h i hi]
    rfl
  · intro col hcol
    rw [List.length_take, List.length_map]
    omega

/-- Witness for C1: the altitude figure on the ten-row sample table. -/
theorem c1_witness :
    (1 ≤ sampleDF.rows.length ∧
      create_time_slider_frames sampleDF colsAlt = .ok figAltSample) ∧
    C1Concl sampleDF colsAlt figAltSample :=
  ⟨⟨by decide, by rfl⟩,
    c1_frame_builder sampleDF colsAlt figAltSample (by decide) (by rfl)⟩

/-- C5: the emitted frames grow monotonically, each being a componentwise
prefix (a take) of the next, and the i-th frame holds exactly the rows
[0, (i+1)*step) of each requested column: no backtracking or merging. -/
theorem c5_monotone_frames (df : DataFrame) (y_cols : List (Row → Int))
    (fig : Fig2D) (h : create_time_slider_frames df y_cols = .ok fig) :
    C5Concl df y_cols fig := by
  constructor
  · intro i fr fr2 hg1 hg2
    have hi1 : i < fig.frames.length := (List.get?_eq_some.mp hg1).1
    have hi2 : i + 1 < fig.frames.length := (List.get?_eq_some.mp hg2).1
    have e1 := create_frames_get df y_cols fig h i hi1
    have e2 := create_frames_get df y_cols fig h (i + 1) hi2
    rw [hg1] at e1
    rw [hg2] at e2
    have hfr : fr = mkFrame df y_cols ((i + 1) * step_size df.rows.length) :=
      Option.some.inj e1
    have hfr2 : fr2 = mkFrame df y_cols ((i + 1 + 1) * step_size df.rows.length) :=
      Option.some.inj e2
    subst hfr
    subst hfr2
    unfold mkFrame
    simp only [List.map_map]
    apply List.map_congr_left
    intro col _
    have hkk : (i + 1) * step_size df.rows.length ≤
        (i + 1 + 1) * step_size df.rows.length :=
      Nat.mul_le_mul_right _ (by omega)
    simp [Function.comp, List.take_take, Nat.min_eq_left hkk]
  · intro i hi
    rw [create_frames_get df y_cols fig h i hi]
    rfl

/-- Witness for C5: the altitude figure on the ten-row sample table. -/
theorem c5_witness :
    create_time_slider_frames sampleDF colsAlt = .ok figAltSample ∧
    C5Concl sampleDF colsAlt figAltSample :=
  ⟨by rfl, c5_monotone_frames sampleDF colsAlt figAltSample (by rfl)⟩

/-- C10: the initial traces of a figure returned by the builder coincide
with its first emitted frame, which is named str(step_size): starting the
animation changes nothing visually. -/
theorem c10_initial_equals_first_frame (df : DataFrame)
    (y_cols : List (Row → Int)) (fig : Fig2D) (h1 : 1 ≤ df.rows.length)
    (h : create_time_slider_frames df y_cols = .ok fig) :
    fig.frames.head? =
      some { name := toString (step_size df.rows.length), data := fig.data } := by
  obtain ⟨hdata, hframes⟩ := create_ok_elim df y_cols fig h
  have hlen : 1 ≤ fig.frames.length := by
    rw [create_frames_length df y_cols fig h1 h]
    exact (Nat.one_le_div_iff (step_size_pos _)).mpr (step_size_le _ h1)
  have hget := create_frames_get df y_cols fig h 0 hlen
  simp only [Nat.zero_add, Nat.one_mul] at hget
  cases hfr : fig.frames with
  | nil => rw [hfr] at hlen; exact absurd hlen (by simp)
  | cons fr rest =>
    rw [hfr] at hget
    have hfr0 : fr = mkFrame df y_cols (step_size df.rows.length) := by
      simpa using hget
    subst hfr0
    show some (mkFrame df y_cols (step_size df.rows.length)) = _
    rw [hdata]
    rfl

/-- Witness for C10: the altitude figure on the ten-row sample table. -/
theorem c10_witness :
    (1 ≤ sampleDF.rows.length ∧
      create_time_slider_frames sampleDF colsAlt = .ok figAltSample) ∧
    figAltSample.frames.head? =
      some { name := toString (step_size sampleDF.rows.length)
             data := figAltSample.data } :=
  ⟨⟨by decide, by rfl⟩,
    c10_initial_equals_first_frame sampleDF colsAlt figAltSample
      (by decide) (by rfl)⟩

/-- C9: the trajectory chart needs at least 10 rows: its initial figure
indexes row 9 of the position columns, so any non-empty table with fewer
rows raises a KeyError; when the figure is built the table has ≥ 10 rows,
the animation has one frame per k in range(10, n, 5), and a 10-row table
yields an empty frame list. -/
theorem c9_trajectory_min_rows (df : DataFrame) (_h1 : 1 ≤ df.rows.length) :
    C9Concl df := by
  refine ⟨fun hlt => build3DFig_error_of df hlt, fun fig hfig => ?_⟩
  obtain ⟨h10, hlen⟩ := build3DFig_ok_elim df fig hfig
  refine ⟨h10, hlen, fun h10eq => ?_⟩
  have hnil : pyRange 10 df.rows.length 5 = [] := by
    rw [h10eq]
    decide
  rw [hnil] at hlen
  exact List.length_eq_zero.mp (by simpa using hlen)

/-- Witness for C9 on the ten-row sample table. -/
theorem c9_witness :
    1 ≤ sampleDF.rows.length ∧ C9Concl sampleDF :=
  ⟨by decide, c9_trajectory_min_rows sampleDF (by decide)⟩

/-- C2 fails on the code: on a ten-row table whose datetimes all fail to
parse, the rows are flagged, yet rendering does not continue through the 2D
charts; formatting the slider label of the first frame calls strftime on a
null timestamp and the run crashes. -/
theorem c2_counterexample :
    (processed parseFail sampleRaw).datetime.any (·.isNone) = true ∧
    runDashboard parseFail sampleRaw = .crashed .natStrftime := by
  constructor
  · decide
  · decide

/-- C2 amended: rows whose combined date/time fails to parse are shown in
the warning table and retained, and execution continues past the warning;
rendering then completes provided the table has at least 10 rows (for the
trajectory chart) and no emitted 2D frame bound k has a null datetime at row
k-1 (whose slider label would raise). -/
theorem c2_amended_render (parse : String → Option Nat) (raw : List Row)
    (h10 : 10 ≤ raw.length) (hb : boundariesOk (processed parse raw)) :
    C2Concl parse raw := by
  have hn : (processed parse raw).rows.length = raw.length := by
    simp [processed, deriveDatetime, processTime]
  obtain ⟨f3, h3⟩ := build3DFig_ok_of (processed parse raw) (by omega)
  obtain ⟨fa, hA⟩ := create_ok_of (processed parse raw) [fun r => r.alt] hb
  obtain ⟨fb, hB⟩ := create_ok_of (processed parse raw)
    [fun r => r.acc_x, fun r => r.acc_y, fun r => r.acc_z] hb
  obtain ⟨fc, hC⟩ := create_ok_of (processed parse raw)
    [fun r => r.eu_x, fun r => r.eu_y, fun r => r.eu_z] hb
  obtain ⟨fd, hD⟩ := create_ok_of (processed parse raw) [fun r => r.valve_state] hb
  have hne : raw.isEmpty = false := by
    cases raw with
    | nil => simp at h10
    | cons a as => rfl
  have hrc : renderCharts (processed parse raw)
      ((processed parse raw).datetime.any (·.isNone))
      (badRows (processed parse raw)) =
      .ok { parseWarning := (processed parse raw).datetime.any (·.isNone)
            badRows := badRows (processed parse raw)
            fig3d := f3, figAlt := fa, figAcc := fb, figEu := fc, figValve := fd
            staticAlt := staticLine (processed parse raw) (fun r => r.alt)
            staticAcc := [staticLine (processed parse raw) (fun r => r.acc_x),
                          staticLine (processed parse raw) (fun r => r.acc_y),
                          staticLine (processed parse raw) (fun r => r.acc_z)]
            staticEu := [staticLine (processed parse raw) (fun r => r.eu_x),
                         staticLine (processed parse raw) (fun r => r.eu_y),
                         staticLine (processed parse raw) (fun r => r.eu_z)]
            staticValve := staticLine (processed parse raw)
              (fun r => r.valve_state) } := by
    simp only [renderCharts, h3, hA, hB, hC, hD, ok_bind]
    rfl
  refine ⟨{ parseWarning := (processed parse raw).datetime.any (·.isNone)
            badRows := badRows (processed parse raw)
            fig3d := f3, figAlt := fa, figAcc := fb, figEu := fc, figValve := fd
            staticAlt := staticLine (processed parse raw) (fun r => r.alt)
            staticAcc := [staticLine (processed parse raw) (fun r => r.acc_x),
                          staticLine (processed parse raw) (fun r => r.acc_y),
                          staticLine (processed parse raw) (fun r => r.acc_z)]
            staticEu := [staticLine (processed parse raw) (fun r => r.eu_x),
                         staticLine (processed parse raw) (fun r => r.eu_y),
                         staticLine (processed parse raw) (fun r => r.eu_z)]
            staticValve := staticLine (processed parse raw)
              (fun r => r.valve_state) },
    ?_, rfl, rfl, processTime_col _ _ raw fun r => rfl⟩
  simp only [runDashboard, hne, Bool.false_eq_true, if_false, hrc]

/-- Witness for the amended C2 on the ten-row sample table with the
always-succeeding parser. -/
theorem c2_witness :
    (10 ≤ sampleRaw.length ∧ boundariesOk (processed parseLen sampleRaw)) ∧
    C2Concl parseLen sampleRaw :=
  ⟨⟨by decide, by decide⟩,
    c2_amended_render parseLen sampleRaw (by decide) (by decide)⟩
